import Mathlib

/-!
# Shallow embedding of the salon booking system's scheduling core

This file embeds, in Lean 4, the availability/scheduling engine and the
booking lifecycle manager of the salon appointment-booking application:

* `booking/services/availability_engine.py` (`AvailabilityEngine`),
* `booking/services/booking_manager.py` (`BookingManager`),
* `booking/services/slot_utils.py` (`_parse_hhmm`, `get_business_hours`,
  `generate_slots_for_day`),
* `booking/serializers.py` (`BookingSerializer.validate`),
* `booking/views_cancel.py` (`cancel_booking_action`),
* the relevant models from `booking/models.py`, `staff/models.py` and
  `configmgr/models.py`.

Conventions of the embedding:

* Timestamps (`datetime`) are integers counting seconds; a Python
  `timedelta(minutes=m)` is `minutes m = 60 * m` seconds.  Second
  granularity is enough for every comparison the code performs.
* Django querysets over a table are lists of records; `filter(...)` is
  `List.filter`, `.exists()` is `List.any`, `.first()` is `.head?`.
* Database rows referenced by foreign key are inlined (a `Booking` holds
  its `Service` record) or held by id (`staff` is an `Option Nat`, since
  `Booking.staff` is nullable).
* Python exceptions become `Except String` results; a function that
  mutates a fetched row and saves it returns the updated row / store.
-/

namespace BookingSystem

/-- `timedelta(minutes=m)` measured in seconds. -/
def minutes (m : Int) : Int := 60 * m

/-- Booking lifecycle status: `booking/models.py` `STATUS_CHOICES` is
`"CONFIRMED" | "CANCELLED"`. -/
inductive Status where
  | CONFIRMED : Status
  | CANCELLED : Status
deriving DecidableEq, Repr

/-- `booking/models.py` `Service`: only the fields the scheduling core
reads (`duration_minutes`, `active`); `name`/`description`/`price` are
carried nowhere in the embedded logic. -/
structure Service where
  duration_minutes : Int
  active : Bool
deriving DecidableEq, Repr

/-- `booking/models.py` `Booking`: client and staff by id (staff is
nullable, `on_delete=SET_NULL`), the `Service` row inlined,
`start_time` in seconds, `status` defaulting to CONFIRMED and an
optional `cancellation_time`. -/
structure Booking where
  client : Nat
  service : Service
  staff : Option Nat
  start_time : Int
  notes : String
  status : Status
  cancellation_time : Option Int
deriving DecidableEq, Repr

/-- `staff/models.py` `StaffAvailability`: a time window during which a
staff member (by id) is available. -/
structure StaffAvailability where
  staff : Nat
  start_time : Int
  end_time : Int
deriving DecidableEq, Repr

/-- `configmgr/models.py` `SystemSetting`: a key/value settings row. -/
structure SystemSetting where
  key : String
  value : String
deriving DecidableEq, Repr

/-!
## AvailabilityEngine (`booking/services/availability_engine.py`)

The staff app and its `StaffAvailability` model are present in this
repository, so the `HAS_STAFF_AVAILABILITY` import guard is `True` and
the window check is active.  The `Booking` table and the
`StaffAvailability` table are passed in as lists.
-/

/-- `AvailabilityEngine._fits_staff_availability`: if any window of this
staff member fully covers `[start_time, start_time + duration)`, allow;
otherwise allow only when the staff member has zero windows at all. -/
def _fits_staff_availability (windows : List StaffAvailability) (staff : Nat)
    (start_time : Int) (duration_minutes : Int) : Bool :=
  let duration := minutes duration_minutes
  let end_time := start_time + duration
  let qs := windows.filter fun w =>
    decide (w.staff = staff) && decide (w.start_time ≤ start_time)
      && decide (end_time ≤ w.end_time)
  if qs.isEmpty = false then
    true
  else if (windows.filter fun w => decide (w.staff = staff)).isEmpty then
    true
  else
    false

/-- `AvailabilityEngine._has_booking_conflict`: true when some booking of
this staff member (any status — the query has no status filter) has
`start_time__lt = start_time + duration` and
`start_time__gte = start_time - duration`, with `duration` the NEW
service's duration. -/
def _has_booking_conflict (bookings : List Booking) (staff : Nat)
    (start_time : Int) (duration_minutes : Int) : Bool :=
  let duration := minutes duration_minutes
  let end_time := start_time + duration
  (bookings.filter fun b => decide (b.staff = some staff)).any fun b =>
    decide (b.start_time < end_time) && decide (start_time - duration ≤ b.start_time)

/-- `AvailabilityEngine.is_slot_available_for_staff`: no booking
conflict, and the slot fits the staff member's availability windows. -/
def is_slot_available_for_staff (bookings : List Booking)
    (windows : List StaffAvailability) (staff : Nat) (service : Service)
    (start_time : Int) : Bool :=
  if _has_booking_conflict bookings staff start_time service.duration_minutes then
    false
  else if !(_fits_staff_availability windows staff start_time service.duration_minutes) then
    false
  else
    true

/-- The conflict predicate as the spec words it (for comparison with
`_has_booking_conflict`): some existing booking of this staff member has
`existing.start < startTime + service.duration` and
`existing.start + existing.service.duration > startTime`, both strict,
with each existing booking's end computed from that booking's own
service duration. -/
def spec_conflict (bookings : List Booking) (staff : Nat)
    (start_time : Int) (duration_minutes : Int) : Bool :=
  bookings.any fun b =>
    decide (b.staff = some staff)
      && decide (b.start_time < start_time + minutes duration_minutes)
      && decide (start_time < b.start_time + minutes b.service.duration_minutes)

/-!
## BookingManager (`booking/services/booking_manager.py`)
-/

/-- `BookingManager.create_booking`: if a staff member is selected,
re-check availability and raise `ValueError` when the slot is taken;
otherwise insert a new `Booking` row (model defaults: `status=CONFIRMED`,
`cancellation_time=NULL`).  Returns the raised message or the created
booking, paired with the booking table after the call. -/
def create_booking (bookings : List Booking) (windows : List StaffAvailability)
    (client : Nat) (service : Service) (staff : Option Nat) (start_time : Int)
    (notes : String) : Except String Booking × List Booking :=
  let proceed :=
    match staff with
    | some s => is_slot_available_for_staff bookings windows s service start_time
    | none => true
  if proceed then
    let booking : Booking :=
      { client := client, service := service, staff := staff,
        start_time := start_time, notes := notes,
        status := Status.CONFIRMED, cancellation_time := none }
    (Except.ok booking, bookings ++ [booking])
  else
    (Except.error "Selected time overlaps with an existing booking for this staff.",
     bookings)

/-- `BookingManager.cancel_booking`: raise `ValueError` when
`booking.start_time - now <= timedelta(minutes=cutoff_minutes)`;
otherwise set `status = "CANCELLED"` and save (the `Booking` model always
has a `status` field, so the legacy delete branch is unreachable).
Returns the updated row on success. -/
def cancel_booking (now : Int) (booking : Booking) (cutoff_minutes : Int) :
    Except String Booking :=
  if booking.start_time - now ≤ minutes cutoff_minutes then
    Except.error "Cannot cancel within 2 hours of appointment start."
  else
    Except.ok { booking with status := Status.CANCELLED }

/-!
## Serializer validation and the create view
(`booking/serializers.py`, `booking/views.py` `BookingViewSet.create`)
-/

/-- `BookingSerializer.validate`: reject a `start_time` that is not in
the future (`start_time <= timezone.now()`). -/
def BookingSerializer_validate (now : Int) (start_time : Int) : Except String Unit :=
  if start_time ≤ now then
    Except.error "Start time must be in the future."
  else
    Except.ok ()

/-- `BookingViewSet.create`: validate the payload with
`BookingSerializer` (which rejects past start times), block inactive
services, auto-assign a free staff member from the roster (ordered by
id) when the requested one is busy or missing — keeping the requested
busy staff member when nobody is free, exactly as the Python loop does —
then create via `BookingManager.create_booking`.  Returns the response
paired with the booking table after the call. -/
def BookingViewSet_create (now : Int) (bookings : List Booking)
    (windows : List StaffAvailability) (roster : List Nat) (client : Nat)
    (service : Service) (staff : Option Nat) (start_time : Int)
    (notes : String) : Except String Booking × List Booking :=
  match BookingSerializer_validate now start_time with
  | Except.error e => (Except.error e, bookings)
  | Except.ok _ =>
    if service.active = false then
      (Except.error "This service is not currently available.", bookings)
    else
      let staff_is_free := fun s =>
        is_slot_available_for_staff bookings windows s service start_time
      let chosen : Option Nat :=
        match staff with
        | some s =>
          if staff_is_free s then some s
          else
            match (roster.filter staff_is_free).head? with
            | some t => some t
            | none => some s
        | none => (roster.filter staff_is_free).head?
      match chosen with
      | none => (Except.error "No staff available for that time.", bookings)
      | some s =>
        if staff_is_free s = false then
          (Except.error "No staff available for that time.", bookings)
        else
          create_booking bookings windows client service (some s) start_time notes

/-!
## The public cancellation flow (`booking/views_cancel.py`)

`cancel_booking_action` is embedded from the point where the booking row
has been fetched and the client-identity fields have matched (the
earlier steps only validate the form and return 400 responses without
touching the booking table).  Both `timezone.now()` calls of the flow
(the manager's cutoff check and the view's `cancellation_time` stamp)
are modelled as the same instant `now`.
-/

/-- `cancel_booking_action` (core): reject an already-`CANCELLED`
booking; enforce the 120-minute cutoff via
`BookingManager.cancel_booking`; then make sure `status` and
`cancellation_time` are set, append the cancellation reason to the
notes, and save the row back into the table (`List.set` — the row is
replaced, never removed).  Returns the response message paired with the
booking table after the call. -/
def cancel_booking_action (now : Int) (bookings : List Booking) (idx : Nat)
    (reason : String) : Except String String × List Booking :=
  match bookings[idx]? with
  | none => (Except.error "Not found.", bookings)
  | some booking =>
    if booking.status = Status.CANCELLED then
      (Except.error "This booking is already cancelled.", bookings)
    else
      match cancel_booking now booking 120 with
      | Except.error e => (Except.error e, bookings)
      | Except.ok b1 =>
        let b2 := if b1.status = Status.CANCELLED then b1
                  else { b1 with status := Status.CANCELLED }
        let b3 := if b2.cancellation_time = none then
                    { b2 with cancellation_time := some now }
                  else b2
        let b4 := if reason = "" then b3
                  else { b3 with notes := b3.notes ++ "\n[Cancel reason] " ++ reason }
        (Except.ok "Your booking has been cancelled.", bookings.set idx b4)

/-!
## Slot utilities (`booking/services/slot_utils.py`)

Times of day are minutes since midnight (`Nat`); `generate_slots_for_day`
anchors every slot to the supplied day, so the day's open and close
instants are the `open`/`close` minute counts and a slot start is a
minute count of that day.
-/

/-- Python's `str.split(":")` on the character list of the string: the
result always has one more group than there are `':'` occurrences
(`"".split(":") == [""]`). -/
def split_on_colon (cs : List Char) : List (List Char) :=
  match cs with
  | [] => [[]]
  | c :: rest =>
    let r := split_on_colon rest
    if c = ':' then [] :: r
    else
      match r with
      | [] => [[c]]
      | g :: gs => (c :: g) :: gs

/-- Accumulator loop of `int(s)` over the remaining digit characters. -/
def digits_to_nat (cs : List Char) (acc : Nat) : Option Nat :=
  match cs with
  | [] => some acc
  | c :: rest =>
    if c.isDigit then digits_to_nat rest (acc * 10 + (c.toNat - 48)) else none

/-- Python's `int(s)` for a component string: fails (`ValueError`) on an
empty string or any non-digit character.  `int()`'s leniencies
(surrounding whitespace, a leading sign, digit-group underscores) are
not modelled: components are plain digit strings. -/
def str_to_int (cs : List Char) : Option Nat :=
  match cs with
  | [] => none
  | _ => digits_to_nat cs 0

/-- `_parse_hhmm`: split on `":"`, unpack exactly two components
(anything else raises, caught by the caller), parse each as an integer
and build a `time(h, m)` — which Python rejects (raising `ValueError`,
caught by the caller) unless `0 ≤ h < 24` and `0 ≤ m < 60`. -/
def _parse_hhmm (value : String) : Option (Nat × Nat) :=
  match split_on_colon value.data with
  | [h, m] =>
    match str_to_int h, str_to_int m with
    | some hn, some mn =>
      if hn < 24 ∧ mn < 60 then some (hn, mn) else none
    | _, _ => none
  | _ => none

/-- A time of day `time(h, m)` as the pair `(h, m)`. -/
abbrev TimeOfDay := Nat × Nat

/-- `get_business_hours`: read the first `BUSINESS_OPEN` and
`BUSINESS_CLOSE` rows of the settings table; when both exist and both
values parse as `HH:MM`, return them, and in every other case (a row
missing, or either value malformed) return the defaults
09:00–17:00. -/
def get_business_hours (settings : List SystemSetting) : TimeOfDay × TimeOfDay :=
  let default_open : TimeOfDay := (9, 0)
  let default_close : TimeOfDay := (17, 0)
  let open_row := (settings.filter fun r => decide (r.key = "BUSINESS_OPEN")).head?
  let close_row := (settings.filter fun r => decide (r.key = "BUSINESS_CLOSE")).head?
  match open_row, close_row with
  | some o, some c =>
    match _parse_hhmm o.value, _parse_hhmm c.value with
    | some ot, some ct => (ot, ct)
    | _, _ => (default_open, default_close)
  | _, _ => (default_open, default_close)

/-- The `while current + slot <= day_close` loop of
`generate_slots_for_day`, with explicit fuel (the Python loop terminates
for every positive duration; the fuel chosen in `generate_slots_for_day`
is shown sufficient by `generate_slots_for_day_eq`). -/
def slots_loop (fuel : Nat) (slot : Nat) (current : Nat) (day_close : Nat) :
    List Nat :=
  match fuel with
  | 0 => []
  | fuel' + 1 =>
    if current + slot ≤ day_close then
      current :: slots_loop fuel' slot (current + slot) day_close
    else
      []

/-- `generate_slots_for_day`: starting at the day's opening minute, keep
appending `current` and stepping by the service duration while
`current + slot <= day_close`.  `day_open`/`day_close` are the business
open/close times anchored to the requested day, in minutes. -/
def generate_slots_for_day (service_duration_minutes : Nat) (day_open : Nat)
    (day_close : Nat) : List Nat :=
  slots_loop (day_close + 1) service_duration_minutes day_open day_close

/-!
## Concrete fixtures

Seconds since the day's midnight: 10:00 is 36000, 10:30 is 37800,
11:00 is 39600; 120 minutes are 7200 seconds.
-/

/-- Fixture: a 60-minute active service. -/
def service60 : Service := { duration_minutes := 60, active := true }

/-- Fixture: a confirmed booking of staff 0 for `service60`, starting at
10:00 (36000 s), hence running 10:00–11:00. -/
def booking_10_00 : Booking :=
  { client := 0, service := service60, staff := some 0, start_time := 36000,
    notes := "", status := Status.CONFIRMED, cancellation_time := none }

/-- Fixture: the same booking, cancelled. -/
def booking_cancelled : Booking := { booking_10_00 with status := Status.CANCELLED }

/-- Fixture: a confirmed booking starting 120 minutes + 1 second after
instant 0. -/
def booking_far : Booking := { booking_10_00 with start_time := 7201 }

/-- Fixture: a confirmed booking starting 120 minutes - 1 second after
instant 0. -/
def booking_near : Booking := { booking_10_00 with start_time := 7199 }

/-- Fixture: the 10:00 booking with a 30-minute service instead. -/
def booking_dur30 : Booking :=
  { booking_10_00 with service := { duration_minutes := 30, active := true } }

/-!
## Helper lemmas
-/

/-- `_has_booking_conflict` reads of each existing booking only its
`staff` and its `start_time`: it equals a scan of those projections. -/
theorem has_booking_conflict_eq_proj (bs : List Booking) (staff : Nat)
    (start_time : Int) (d : Int) :
    _has_booking_conflict bs staff start_time d
      = (bs.map fun b => (b.staff, b.start_time)).any fun p =>
          decide (p.1 = some staff) && decide (p.2 < start_time + minutes d)
            && decide (start_time - minutes d ≤ p.2) := by
  induction bs with
  | nil => rfl
  | cons b bs ih =>
    have h1 : _has_booking_conflict (b :: bs) staff start_time d
        = ((decide (b.staff = some staff)
              && (decide (b.start_time < start_time + minutes d)
                && decide (start_time - minutes d ≤ b.start_time)))
            || _has_booking_conflict bs staff start_time d) := by
      simp only [_has_booking_conflict, List.any_filter, List.any_cons]
    rw [h1, ih, List.map_cons, List.any_cons, ← Bool.and_assoc]

/-!
## Claim theorems
-/

/-- C1 counterexample: with one confirmed 10:00–11:00 booking of staff 0
and a 60-minute service, the code's conflict check reports a conflict
for an 11:00 start (so 11:00 is NOT available), while the spec's
formula `existing.start < newEnd AND existing.start + existing.duration
> startTime` reports none — the claim's rule and its "an 11:00 start is
available" consequence are both false of the code. -/
theorem conflict_rule_differs_at_11_00 :
    _has_booking_conflict [booking_10_00] 0 39600 60 = true
    ∧ spec_conflict [booking_10_00] 0 39600 60 = false
    ∧ is_slot_available_for_staff [booking_10_00] [] 0 service60 39600 = false
    ∧ booking_10_00.status = Status.CONFIRMED :=
  ⟨by decide, by decide, by decide, rfl⟩

/-- C1 (amended): for every staff member, candidate start time and
service duration D, the conflict check reports a conflict exactly when
some existing booking of that staff member (of any status) satisfies
`existing.start < startTime + D` and `existing.start >= startTime - D`,
where D is the NEW service's duration — each existing booking's own
service duration is never consulted; a candidate ending exactly at an
existing start is not a conflict, but an existing booking starting
exactly D before the candidate IS one, so with a confirmed 10:00–11:00
booking and a 60-minute service both a 10:30 and an 11:00 start are
unavailable. -/
theorem has_booking_conflict_iff (bs : List Booking) (staff : Nat)
    (start_time d : Int) :
    _has_booking_conflict bs staff start_time d = true ↔
      ∃ b ∈ bs, b.staff = some staff
        ∧ b.start_time < start_time + minutes d
        ∧ start_time - minutes d ≤ b.start_time := by
  simp only [_has_booking_conflict, List.any_eq_true, List.mem_filter,
    Bool.and_eq_true, decide_eq_true_eq]
  constructor
  · rintro ⟨b, ⟨hmem, hstaff⟩, hlt, hge⟩
    exact ⟨b, hmem, hstaff, hlt, hge⟩
  · rintro ⟨b, hmem, hstaff, hlt, hge⟩
    exact ⟨b, ⟨hmem, hstaff⟩, hlt, hge⟩

/-- C2 (code bug): `_has_booking_conflict` filters only on the staff
member, never on `status`, so a CANCELLED booking still blocks its
slot: with a single cancelled 10:00 booking of staff 0 and no
availability windows, `is_slot_available_for_staff` returns `false` for
a 10:00 query, although the claim says a cancelled booking never causes
unavailability. -/
theorem cancelled_booking_still_blocks_slot :
    booking_cancelled.status = Status.CANCELLED
    ∧ is_slot_available_for_staff [booking_cancelled] [] 0 service60 36000 = false :=
  ⟨rfl, by decide⟩

/-- C10: the result of `is_slot_available_for_staff` does not depend on
the durations of the existing bookings' services — any two booking
tables that agree on every booking's `staff` and `start_time` yield the
same availability for every staff/service/start query (the conflict
check reads only existing bookings' start times and the new service's
duration). -/
theorem availability_ignores_existing_durations
    (bs1 bs2 : List Booking) (windows : List StaffAvailability) (staff : Nat)
    (service : Service) (start_time : Int)
    (h : bs1.map (fun b => (b.staff, b.start_time))
          = bs2.map (fun b => (b.staff, b.start_time))) :
    is_slot_available_for_staff bs1 windows staff service start_time
      = is_slot_available_for_staff bs2 windows staff service start_time := by
  have hc : _has_booking_conflict bs1 staff start_time service.duration_minutes
      = _has_booking_conflict bs2 staff start_time service.duration_minutes := by
    rw [has_booking_conflict_eq_proj, has_booking_conflict_eq_proj, h]
  simp only [is_slot_available_for_staff, hc]

/-- C10 witness: two one-row booking tables whose entries agree on staff
and start time but carry a 60-minute and a 30-minute service produce
the same availability answer. -/
theorem availability_ignores_existing_durations_witness :
    [booking_10_00].map (fun b => (b.staff, b.start_time))
        = [booking_dur30].map (fun b => (b.staff, b.start_time))
    ∧ is_slot_available_for_staff [booking_10_00] [] 0 service60 37800
        = is_slot_available_for_staff [booking_dur30] [] 0 service60 37800 :=
  ⟨rfl, availability_ignores_existing_durations [booking_10_00] [booking_dur30]
    [] 0 service60 37800 rfl⟩

/-- C3: every booking-creation request whose `start_time` is less than
or equal to the current time is rejected by the serializer's past-time
validation ("Start time must be in the future.") before the manager
runs, and the booking table is unchanged — a booking's start time is
strictly in the future at creation time. -/
theorem create_past_time_rejected (now : Int) (bookings : List Booking)
    (windows : List StaffAvailability) (roster : List Nat) (client : Nat)
    (service : Service) (staff : Option Nat) (start_time : Int) (notes : String)
    (h : start_time ≤ now) :
    BookingViewSet_create now bookings windows roster client service staff
        start_time notes
      = (Except.error "Start time must be in the future.", bookings) := by
  unfold BookingViewSet_create BookingSerializer_validate
  rw [if_pos h]

/-- C3 witness: a creation request at instant 100 for start time 50 is
rejected with the past-time error and persists nothing. -/
theorem create_past_time_rejected_witness :
    (50 : Int) ≤ 100
    ∧ BookingViewSet_create 100 [] [] [0] 0 service60 none 50 ""
        = (Except.error "Start time must be in the future.", []) :=
  ⟨by decide,
   create_past_time_rejected 100 [] [] [0] 0 service60 none 50 "" (by decide)⟩

/-- C4: for a fetched CONFIRMED booking and the default cutoff of 120
minutes, the cancellation flow raises the cutoff-violation error
exactly when `start_time - now <= 120 minutes`, and when it raises the
booking table is unchanged (the booking stays CONFIRMED); otherwise
cancellation succeeds. -/
theorem cancel_cutoff_boundary (now : Int) (bookings : List Booking) (idx : Nat)
    (reason : String) (b : Booking) (hidx : bookings[idx]? = some b)
    (hst : b.status = Status.CONFIRMED) :
    (b.start_time - now ≤ minutes 120 →
      cancel_booking_action now bookings idx reason
        = (Except.error "Cannot cancel within 2 hours of appointment start.",
           bookings))
    ∧ (minutes 120 < b.start_time - now →
        (cancel_booking_action now bookings idx reason).1
          = Except.ok "Your booking has been cancelled.") := by
  constructor
  · intro hle
    unfold cancel_booking_action cancel_booking
    simp only [hidx]
    rw [if_neg (by rw [hst]; decide), if_pos hle]
  · intro hlt
    unfold cancel_booking_action cancel_booking
    simp only [hidx]
    rw [if_neg (by rw [hst]; decide), if_neg (not_le.mpr hlt)]

/-- C4 witness: at instant 0, a booking starting at second 7199
(120 min − 1 s) cannot be cancelled and the table is untouched, while a
booking starting at second 7201 (120 min + 1 s) can be cancelled. -/
theorem cancel_cutoff_boundary_witness :
    (booking_near.start_time - 0 ≤ minutes 120
      ∧ cancel_booking_action 0 [booking_near] 0 ""
          = (Except.error "Cannot cancel within 2 hours of appointment start.",
             [booking_near]))
    ∧ (minutes 120 < booking_far.start_time - 0
      ∧ (cancel_booking_action 0 [booking_far] 0 "").1
          = Except.ok "Your booking has been cancelled.") :=
  ⟨⟨by decide,
    (cancel_cutoff_boundary 0 [booking_near] 0 "" booking_near rfl rfl).1
      (by decide)⟩,
   ⟨by decide,
    (cancel_cutoff_boundary 0 [booking_far] 0 "" booking_far rfl rfl).2
      (by decide)⟩⟩

/-- C5: a successful cancellation of a fetched CONFIRMED booking whose
remaining time exceeds the cutoff transitions its status to CANCELLED,
records `cancellation_time = now`, keeps every identifying field, and
persists the updated row back into the table by replacement — the
table keeps its length, the record is never physically deleted. -/
theorem cancel_success_updates (now : Int) (bookings : List Booking) (idx : Nat)
    (reason : String) (b : Booking) (hidx : bookings[idx]? = some b)
    (hst : b.status = Status.CONFIRMED) (hct : b.cancellation_time = none)
    (hcut : minutes 120 < b.start_time - now) :
    ∃ b4, cancel_booking_action now bookings idx reason
        = (Except.ok "Your booking has been cancelled.", bookings.set idx b4)
      ∧ b4.status = Status.CANCELLED
      ∧ b4.cancellation_time = some now
      ∧ b4.client = b.client ∧ b4.service = b.service ∧ b4.staff = b.staff
      ∧ b4.start_time = b.start_time
      ∧ (bookings.set idx b4).length = bookings.length := by
  refine ⟨if reason = "" then
      { b with status := Status.CANCELLED, cancellation_time := some now }
    else
      { b with
        status := Status.CANCELLED
        cancellation_time := some now
        notes := b.notes ++ "\n[Cancel reason] " ++ reason },
    ?_, ?_, ?_, ?_, ?_, ?_, ?_, ?_⟩
  all_goals by_cases hr : reason = "" <;>
    simp [hr, cancel_booking_action, cancel_booking, hidx, hst, hct,
      not_le.mpr hcut, List.length_set]

/-- C5 witness: cancelling the 7201-second booking at instant 0 yields
the cancelled, timestamped row stored in place. -/
theorem cancel_success_updates_witness :
    [booking_far][0]? = some booking_far
    ∧ booking_far.status = Status.CONFIRMED
    ∧ booking_far.cancellation_time = none
    ∧ minutes 120 < booking_far.start_time - 0
    ∧ ∃ b4, cancel_booking_action 0 [booking_far] 0 ""
        = (Except.ok "Your booking has been cancelled.", [booking_far].set 0 b4)
      ∧ b4.status = Status.CANCELLED
      ∧ b4.cancellation_time = some 0
      ∧ b4.client = booking_far.client ∧ b4.service = booking_far.service
      ∧ b4.staff = booking_far.staff
      ∧ b4.start_time = booking_far.start_time
      ∧ ([booking_far].set 0 b4).length = [booking_far].length :=
  ⟨rfl, rfl, rfl, by decide,
   cancel_success_updates 0 [booking_far] 0 "" booking_far rfl rfl rfl (by decide)⟩

/-- C6: a booking already in status CANCELLED is rejected by the
cancellation flow with "This booking is already cancelled." and the
table is unchanged — a second cancellation never succeeds. -/
theorem cancel_already_cancelled_rejected (now : Int) (bookings : List Booking)
    (idx : Nat) (reason : String) (b : Booking) (hidx : bookings[idx]? = some b)
    (hc : b.status = Status.CANCELLED) :
    cancel_booking_action now bookings idx reason
      = (Except.error "This booking is already cancelled.", bookings) := by
  unfold cancel_booking_action
  simp only [hidx]
  rw [if_pos hc]

/-- C6 witness: re-cancelling the already-cancelled 10:00 booking is
rejected and leaves the table unchanged. -/
theorem cancel_already_cancelled_rejected_witness :
    booking_cancelled.status = Status.CANCELLED
    ∧ cancel_booking_action 0 [booking_cancelled] 0 ""
        = (Except.error "This booking is already cancelled.", [booking_cancelled]) :=
  ⟨rfl,
   cancel_already_cancelled_rejected 0 [booking_cancelled] 0 "" booking_cancelled
     rfl rfl⟩

/-- Closed form of the slot loop: with a positive step `d` and enough
fuel, the loop starting at `current` produces the arithmetic sequence
of `(close - current) / d` starts. -/
theorem slots_loop_eq (d : Nat) (hd : 0 < d) :
    ∀ fuel current close, (close - current) / d < fuel →
      slots_loop fuel d current close
        = (List.range ((close - current) / d)).map (fun i => current + d * i) := by
  intro fuel
  induction fuel with
  | zero => intro current close h; exact absurd h (Nat.not_lt_zero _)
  | succ f ih =>
    intro current close h
    by_cases hc : current + d ≤ close
    · have hdle : d ≤ close - current := by omega
      have hsub : close - (current + d) = close - current - d := by omega
      have hdiv : (close - current) / d = (close - (current + d)) / d + 1 := by
        rw [Nat.div_eq_sub_div hd hdle, hsub]
      have hih := ih (current + d) close (by omega)
      have hhead : current + d * 0 = current := by omega
      have hfun : ((fun i => current + d * i) ∘ Nat.succ)
          = fun i => (current + d) + d * i := by
        funext i
        simp only [Function.comp_apply, Nat.succ_eq_add_one, Nat.mul_succ]
        omega
      rw [slots_loop, if_pos hc, hih, hdiv, List.range_succ_eq_map,
        List.map_cons, List.map_map, hhead, hfun]
    · have h0 : (close - current) / d = 0 := Nat.div_eq_of_lt (by omega)
      rw [slots_loop, if_neg hc, h0]
      rfl

/-- C7: for every positive duration `d` and business hours
`day_open ≤ day_close` (minutes of the day), `generate_slots_for_day`
returns exactly the arithmetic sequence `day_open, day_open + d, ...`
containing each start whose end does not exceed `day_close`: the result
is `(List.range ((day_close - day_open) / d)).map (day_open + d * ·)`,
a time is a slot exactly when it is `day_open + d * i` for some `i` and
ends by `day_close`, and the slots are strictly increasing. -/
theorem generate_slots_for_day_eq (d day_open day_close : Nat) (hd : 0 < d)
    (hoc : day_open ≤ day_close) :
    generate_slots_for_day d day_open day_close
      = (List.range ((day_close - day_open) / d)).map (fun i => day_open + d * i)
    ∧ (∀ t, t ∈ generate_slots_for_day d day_open day_close ↔
        ∃ i, t = day_open + d * i ∧ t + d ≤ day_close)
    ∧ List.Pairwise (· < ·) (generate_slots_for_day d day_open day_close) := by
  have hfuel : (day_close - day_open) / d < day_close + 1 :=
    Nat.lt_succ_of_le (Nat.le_trans (Nat.div_le_self _ _) (Nat.sub_le _ _))
  have hmain : generate_slots_for_day d day_open day_close
      = (List.range ((day_close - day_open) / d)).map (fun i => day_open + d * i) :=
    slots_loop_eq d hd (day_close + 1) day_open day_close hfuel
  refine ⟨hmain, fun t => ?_, ?_⟩
  · rw [hmain]
    simp only [List.mem_map, List.mem_range]
    constructor
    · rintro ⟨i, hi, rfl⟩
      refine ⟨i, rfl, ?_⟩
      have h1 : (i + 1) * d ≤ day_close - day_open :=
        (Nat.le_div_iff_mul_le hd).mp hi
      rw [Nat.add_mul, one_mul, Nat.mul_comm i d] at h1
      omega
    · rintro ⟨i, rfl, hile⟩
      refine ⟨i, ?_, rfl⟩
      have h1 : (i + 1) * d ≤ day_close - day_open := by
        rw [Nat.add_mul, one_mul, Nat.mul_comm i d]
        omega
      have h2 := (Nat.le_div_iff_mul_le hd).mpr h1
      omega
  · rw [hmain, List.pairwise_map]
    refine (List.pairwise_lt_range _).imp ?_
    intro a b hab
    have hmul : d * a < d * b := mul_lt_mul_of_pos_left hab hd
    omega

/-- C7 witness: a 60-minute service in 09:00–17:00 business hours
(minutes 540–1020) yields exactly the eight slots 09:00 through
16:00. -/
theorem generate_slots_for_day_eq_witness :
    0 < 60 ∧ 540 ≤ 1020
    ∧ generate_slots_for_day 60 540 1020
        = (List.range ((1020 - 540) / 60)).map (fun i => 540 + 60 * i)
    ∧ generate_slots_for_day 60 540 1020
        = [540, 600, 660, 720, 780, 840, 900, 960] :=
  ⟨by decide, by decide,
   (generate_slots_for_day_eq 60 540 1020 (by decide) (by decide)).1, by decide⟩

/-- C8: the availability-window check passes exactly when the staff
member has zero `StaffAvailability` rows (permissive default) or some
window of theirs satisfies `window.start_time <= start_time` and
`window.end_time >= start_time + duration`. -/
theorem fits_staff_availability_iff (windows : List StaffAvailability)
    (staff : Nat) (start_time d : Int) :
    _fits_staff_availability windows staff start_time d = true ↔
      ((windows.filter fun w => decide (w.staff = staff)) = []
        ∨ ∃ w ∈ windows, w.staff = staff ∧ w.start_time ≤ start_time
            ∧ start_time + minutes d ≤ w.end_time) := by
  have hqs : ((windows.filter fun w =>
        decide (w.staff = staff) && decide (w.start_time ≤ start_time)
          && decide (start_time + minutes d ≤ w.end_time)) = [])
      ↔ ¬ ∃ w ∈ windows, w.staff = staff ∧ w.start_time ≤ start_time
          ∧ start_time + minutes d ≤ w.end_time := by
    rw [List.filter_eq_nil_iff]
    constructor
    · rintro hall ⟨w, hmem, h1, h2, h3⟩
      exact hall w hmem (by simp [h1, h2, h3])
    · intro hne w hmem hw
      simp only [Bool.and_eq_true, decide_eq_true_eq] at hw
      exact hne ⟨w, hmem, hw.1.1, hw.1.2, hw.2⟩
  constructor
  · intro hfit
    by_cases hq : (windows.filter fun w =>
        decide (w.staff = staff) && decide (w.start_time ≤ start_time)
          && decide (start_time + minutes d ≤ w.end_time)) = []
    · by_cases hs : (windows.filter fun w => decide (w.staff = staff)) = []
      · exact Or.inl hs
      · exfalso
        unfold _fits_staff_availability at hfit
        simp [List.isEmpty_iff, hq, hs] at hfit
    · exact Or.inr (not_not.mp fun hne => hq (hqs.mpr hne))
  · intro h
    rcases h with h | h
    · have hq : (windows.filter fun w =>
          decide (w.staff = staff) && decide (w.start_time ≤ start_time)
            && decide (start_time + minutes d ≤ w.end_time)) = [] := by
        rw [List.filter_eq_nil_iff]
        intro a hmem
        have ha := List.filter_eq_nil_iff.mp h a hmem
        simp only [decide_eq_true_eq] at ha
        simp [ha]
      unfold _fits_staff_availability
      simp [List.isEmpty_iff, hq, h]
    · have hq : (windows.filter fun w =>
          decide (w.staff = staff) && decide (w.start_time ≤ start_time)
            && decide (start_time + minutes d ≤ w.end_time)) ≠ [] :=
        fun hnil => (hqs.mp hnil) h
      unfold _fits_staff_availability
      rcases hqe : (windows.filter fun w =>
          decide (w.staff = staff) && decide (w.start_time ≤ start_time)
            && decide (start_time + minutes d ≤ w.end_time)).isEmpty
      · simp [hqe]
      · exact absurd (List.isEmpty_iff.mp hqe) hq

/-- C9: `get_business_hours` is total — it returns the configured pair
when both `BUSINESS_OPEN` and `BUSINESS_CLOSE` rows exist and parse as
`HH:MM`, and the fixed default 09:00–17:00 whenever a row is missing or
either value is malformed. -/
theorem get_business_hours_total (settings : List SystemSetting) :
    (∀ o c ot ct,
      (settings.filter fun r => decide (r.key = "BUSINESS_OPEN")).head? = some o →
      (settings.filter fun r => decide (r.key = "BUSINESS_CLOSE")).head? = some c →
      _parse_hhmm o.value = some ot → _parse_hhmm c.value = some ct →
      get_business_hours settings = (ot, ct))
    ∧ ((settings.filter fun r => decide (r.key = "BUSINESS_OPEN")).head? = none →
        get_business_hours settings = ((9, 0), (17, 0)))
    ∧ ((settings.filter fun r => decide (r.key = "BUSINESS_CLOSE")).head? = none →
        get_business_hours settings = ((9, 0), (17, 0)))
    ∧ (∀ o,
      (settings.filter fun r => decide (r.key = "BUSINESS_OPEN")).head? = some o →
      _parse_hhmm o.value = none → get_business_hours settings = ((9, 0), (17, 0)))
    ∧ (∀ c,
      (settings.filter fun r => decide (r.key = "BUSINESS_CLOSE")).head? = some c →
      _parse_hhmm c.value = none → get_business_hours settings = ((9, 0), (17, 0))) := by
  refine ⟨?_, ?_, ?_, ?_, ?_⟩
  · intro o c ot ct ho hc hpo hpc
    unfold get_business_hours
    simp [ho, hc, hpo, hpc]
  · intro ho
    unfold get_business_hours
    simp [ho]
  · intro hc
    rcases ho : (settings.filter fun r => decide (r.key = "BUSINESS_OPEN")).head?
      with _ | o
    · unfold get_business_hours
      simp [ho]
    · unfold get_business_hours
      simp [ho, hc]
  · intro o ho hpo
    rcases hc : (settings.filter fun r => decide (r.key = "BUSINESS_CLOSE")).head?
      with _ | c
    · unfold get_business_hours
      simp [ho, hc]
    · unfold get_business_hours
      simp [ho, hc, hpo]
  · intro c hc hpc
    rcases ho : (settings.filter fun r => decide (r.key = "BUSINESS_OPEN")).head?
      with _ | o
    · unfold get_business_hours
      simp [ho]
    · rcases hpo : _parse_hhmm o.value with _ | ot
      · unfold get_business_hours
        simp [ho, hc, hpo]
      · unfold get_business_hours
        simp [ho, hc, hpo, hpc]

/-- C9 witness: a well-formed settings store yields its configured
hours; a malformed open value (`"25:00"`) and an empty store both yield
the 09:00–17:00 default. -/
theorem get_business_hours_total_witness :
    get_business_hours [⟨"BUSINESS_OPEN", "08:30"⟩, ⟨"BUSINESS_CLOSE", "18:00"⟩]
        = ((8, 30), (18, 0))
    ∧ get_business_hours [⟨"BUSINESS_OPEN", "25:00"⟩, ⟨"BUSINESS_CLOSE", "18:00"⟩]
        = ((9, 0), (17, 0))
    ∧ get_business_hours [] = ((9, 0), (17, 0)) :=
  ⟨(get_business_hours_total _).1 ⟨"BUSINESS_OPEN", "08:30"⟩
      ⟨"BUSINESS_CLOSE", "18:00"⟩ (8, 30) (18, 0) rfl rfl rfl rfl,
   (get_business_hours_total _).2.2.2.1 ⟨"BUSINESS_OPEN", "25:00"⟩ rfl rfl,
   (get_business_hours_total _).2.1 rfl⟩

end BookingSystem
